import Mathlib

/-! Verification of the LensCorrect 2D transform-and-compositing engine.

Shallow embedding of the WebGL lens-distortion editor:
* the single-image correction fragment shader (`fsSource` in the
  LensCorrector component) and the layered compositor fragment shader
  (`FS_SOURCE` in `PanoramaEditor.tsx`), modelled over `ℚ`;
* the 3x3 homogeneous matrix helpers (`m3_projection`, `m3_translation`,
  `m3_rotation`, `m3_scale`, `m3_multiply`) with the column-major
  application convention that `gl.uniformMatrix3fv(loc, false, m)` and
  `u_matrix * vec3(pos, 1)` impose on the stored arrays;
* the layer list operations (`handleFileUpload`'s layer synthesis,
  `updateLayer`, `deleteLayer`) and the view state operations
  (`handleWheel`'s pinch-zoom branch, the `+`/`-` zoom buttons);
* the pointer-down hit test of `handleMouseDown`, with JavaScript
  (IEEE-754) division semantics for the division by the scaled layer
  extents, so that degenerate (zero-extent) layers behave as the code does.
-/

/-! ## Colors and the two fragment shaders (over ℚ) -/

/-- RGBA color, components as exact rationals (the shaders use `mediump float`;
we model the arithmetic exactly). -/
abbrev Color : Type := ℚ × ℚ × ℚ × ℚ

/-- Inverse sampling map of the single-image shader `fsSource`
(LensCorrector): `coord = v_texCoord - 0.5`, `r2 = dot(coord, coord)`,
`dist_coord = coord * (1.0 + u_strength * r2)`,
`final_coord = dist_coord / u_zoom`, `uv = final_coord + 0.5`. -/
def lensMap (k zoom : ℚ) (uv : ℚ × ℚ) : ℚ × ℚ :=
  let cx := uv.1 - 1/2
  let cy := uv.2 - 1/2
  let r2 := cx * cx + cy * cy
  let dx := cx * (1 + k * r2)
  let dy := cy * (1 + k * r2)
  (dx / zoom + 1/2, dy / zoom + 1/2)

/-- Inverse sampling map of the layered compositor shader `FS_SOURCE`
(PanoramaEditor): same radial model, without the zoom divide. -/
def distortMap (k : ℚ) (uv : ℚ × ℚ) : ℚ × ℚ :=
  let cx := uv.1 - 1/2
  let cy := uv.2 - 1/2
  let r2 := cx * cx + cy * cy
  (cx * (1 + k * r2) + 1/2, cy * (1 + k * r2) + 1/2)

/-- The shaders' edge test: `uv.x < 0.0 || uv.x > 1.0 || uv.y < 0.0 || uv.y > 1.0`. -/
def uvOutOfBounds (uv : ℚ × ℚ) : Bool :=
  uv.1 < 0 || uv.1 > 1 || uv.2 < 0 || uv.2 > 1

/-- Fragment output of the single-image shader: fully transparent
`vec4(0,0,0,0)` when the mapped source UV is out of bounds, otherwise the
sampled texel. `tex` abstracts `texture2D(u_image, ·)`. -/
def singleFragment (tex : ℚ × ℚ → Color) (k zoom : ℚ) (uv : ℚ × ℚ) : Color :=
  let u := lensMap k zoom uv
  if uvOutOfBounds u then (0, 0, 0, 0) else tex u

/-- Fragment output of the layered compositor shader: `none` models
`discard`; otherwise `vec4(color.rgb, color.a * u_opacity)`. -/
def layeredFragment (tex : ℚ × ℚ → Color) (k opacity : ℚ) (uv : ℚ × ℚ) :
    Option Color :=
  let u := distortMap k uv
  if uvOutOfBounds u then none
  else
    let c := tex u
    some (c.1, c.2.1, c.2.2.1, c.2.2.2 * opacity)

/-- Source-over blending as configured by
`gl.blendFunc(gl.SRC_ALPHA, gl.ONE_MINUS_SRC_ALPHA)`: every channel of the
written fragment is weighted by source alpha against the destination. -/
def blendSrcOver (src dst : Color) : Color :=
  let a := src.2.2.2
  (src.1 * a + dst.1 * (1 - a),
   src.2.1 * a + dst.2.1 * (1 - a),
   src.2.2.1 * a + dst.2.2.1 * (1 - a),
   a * a + dst.2.2.2 * (1 - a))

/-- Effect of one layered-mode fragment on a framebuffer pixel: a discarded
fragment leaves the destination untouched, a written one is blended. -/
def compositeLayered (dst : Color) (frag : Option Color) : Color :=
  match frag with
  | none => dst
  | some c => blendSrcOver c dst

/-- Fixed all-white opaque texture used for concrete evaluations. -/
def texWhite : ℚ × ℚ → Color := fun _ => (1, 1, 1, 1)

/-! ## 3x3 homogeneous matrices

The source stores matrices as flat 9-element arrays and hands them to
`gl.uniformMatrix3fv(loc, false, m)`; WebGL consumes such an array in
column-major order, so the array `[e0 … e8]` denotes the matrix with
columns `(e0,e1,e2)`, `(e3,e4,e5)`, `(e6,e7,e8)`.  `Mat3` keeps the array
layout; `matApply` is the vertex shader's `u_matrix * vec3(a_position, 1)`
restricted to its `xy` output (the third row of every matrix built by the
source is `(0,0,1)` in these columns). -/

structure Mat3 (α : Type) where
  e0 : α
  e1 : α
  e2 : α
  e3 : α
  e4 : α
  e5 : α
  e6 : α
  e7 : α
  e8 : α
  deriving DecidableEq

/-- Projection matrix `m3_projection(width, height)` from `PanoramaEditor.tsx`. -/
def m3_projection {α : Type} [Field α] (width height : α) : Mat3 α :=
  ⟨2 / width, 0, 0, 0, -2 / height, 0, -1, 1, 1⟩

/-- Translation matrix `m3_translation(tx, ty)`. -/
def m3_translation {α : Type} [Field α] (tx ty : α) : Mat3 α :=
  ⟨1, 0, 0, 0, 1, 0, tx, ty, 1⟩

/-- Rotation matrix of `m3_rotation(angle)` with the cosine and sine passed
explicitly (the source computes them with `Math.cos`/`Math.sin`). -/
def m3_rotationCS {α : Type} [Field α] (c s : α) : Mat3 α :=
  ⟨c, -s, 0, s, c, 0, 0, 0, 1⟩

/-- Rotation matrix `m3_rotation(angleInRadians)` from `PanoramaEditor.tsx`. -/
noncomputable def m3_rotation (angleInRadians : ℝ) : Mat3 ℝ :=
  m3_rotationCS (Real.cos angleInRadians) (Real.sin angleInRadians)

/-- Scale matrix `m3_scale(sx, sy)`. -/
def m3_scale {α : Type} [Field α] (sx sy : α) : Mat3 α :=
  ⟨sx, 0, 0, 0, sy, 0, 0, 0, 1⟩

/-- Matrix product `m3_multiply(a, b)`, transcribed entry by entry from the
source (`aIJ` is `a[I*3+J]`). -/
def m3_multiply {α : Type} [Field α] (a b : Mat3 α) : Mat3 α :=
  let a00 := a.e0; let a01 := a.e1; let a02 := a.e2
  let a10 := a.e3; let a11 := a.e4; let a12 := a.e5
  let a20 := a.e6; let a21 := a.e7; let a22 := a.e8
  let b00 := b.e0; let b01 := b.e1; let b02 := b.e2
  let b10 := b.e3; let b11 := b.e4; let b12 := b.e5
  let b20 := b.e6; let b21 := b.e7; let b22 := b.e8
  ⟨b00 * a00 + b01 * a10 + b02 * a20,
   b00 * a01 + b01 * a11 + b02 * a21,
   b00 * a02 + b01 * a12 + b02 * a22,
   b10 * a00 + b11 * a10 + b12 * a20,
   b10 * a01 + b11 * a11 + b12 * a21,
   b10 * a02 + b11 * a12 + b12 * a22,
   b20 * a00 + b21 * a10 + b22 * a20,
   b20 * a01 + b21 * a11 + b22 * a21,
   b20 * a02 + b21 * a12 + b22 * a22⟩

/-- Column-major application of a stored matrix to a point, as the vertex
shader computes `(u_matrix * vec3(p, 1)).xy`. -/
def matApply {α : Type} [Field α] (m : Mat3 α) (p : α × α) : α × α :=
  (m.e0 * p.1 + m.e3 * p.2 + m.e6, m.e1 * p.1 + m.e4 * p.2 + m.e7)

/-! ## Layers, view state and the state-mutating operations -/

/-- The `ImageLayer` record of `PanoramaEditor.tsx`; the decoded
`HTMLImageElement` is dropped and the `WebGLTexture` back-reference is
modelled as an optional numeric handle. -/
structure ImageLayer (α : Type) where
  id : String
  name : String
  texture : Option Nat
  x : α
  y : α
  width : α
  height : α
  scale : α
  rotation : α
  distortion : α
  opacity : α
  zIndex : ℤ
  deriving DecidableEq

/-- The `view` state `{x, y, scale}` (pan offset and zoom). -/
structure ViewState (α : Type) where
  x : α
  y : α
  scale : α
  deriving DecidableEq

/-- The pinch-zoom branch of `handleWheel`: `scaleFactor` stands for
`Math.exp(-e.deltaY * 0.01)`; the new scale is clamped by
`Math.max(0.1, Math.min(newScale, 10))` and the pan offset is recomputed
so the world point under the cursor stays put. -/
def wheelZoomStep {α : Type} [LinearOrderedField α]
    (v : ViewState α) (scaleFactor mouseX mouseY : α) : ViewState α :=
  let newScale := max (1/10) (min (v.scale * scaleFactor) 10)
  let worldX := (mouseX - v.x) / v.scale
  let worldY := (mouseY - v.y) / v.scale
  ⟨mouseX - worldX * newScale, mouseY - worldY * newScale, newScale⟩

/-- The `+` zoom button: `setView(v => ({...v, scale: v.scale * 1.1}))`. -/
def zoomInStep {α : Type} [Field α] (v : ViewState α) : ViewState α :=
  { v with scale := v.scale * (11/10) }

/-- The `-` zoom button: `setView(v => ({...v, scale: v.scale / 1.1}))`. -/
def zoomOutStep {α : Type} [Field α] (v : ViewState α) : ViewState α :=
  { v with scale := v.scale / (11/10) }

/-- The layer record synthesized in `handleFileUpload`'s `img.onload`
callback: centered in the canvas, scale `0.5`, rotation `0`, distortion
`0`, opacity `0.8`, and `zIndex: layers.length + 1`. -/
def addedRecord (layers : List (ImageLayer ℚ)) (id name : String)
    (tex : Option Nat) (imgW imgH canvasW canvasH : ℚ) : ImageLayer ℚ :=
  { id := id
    name := name
    texture := tex
    x := canvasW / 2
    y := canvasH / 2
    width := imgW
    height := imgH
    scale := 1/2
    rotation := 0
    distortion := 0
    opacity := 4/5
    zIndex := (layers.length : ℤ) + 1 }

/-- Appending `setLayers(prev => [...prev, newLayer])`: the new record goes last. -/
def addLayer (layers : List (ImageLayer ℚ)) (id name : String)
    (tex : Option Nat) (imgW imgH canvasW canvasH : ℚ) : List (ImageLayer ℚ) :=
  layers ++ [addedRecord layers id name tex imgW imgH canvasW canvasH]

/-- A partial update, as passed to `updateLayer(id, updates)`; `none`
models an absent key of the JavaScript object literal. -/
structure LayerUpdate where
  x : Option ℚ
  y : Option ℚ
  scale : Option ℚ
  rotation : Option ℚ
  distortion : Option ℚ
  opacity : Option ℚ
  deriving DecidableEq

/-- The object spread `{...l, ...updates}`: a field supplied by the update
overwrites, an absent field keeps the layer's value. -/
def applyUpdate (l : ImageLayer ℚ) (u : LayerUpdate) : ImageLayer ℚ :=
  { l with
    x := u.x.getD l.x
    y := u.y.getD l.y
    scale := u.scale.getD l.scale
    rotation := u.rotation.getD l.rotation
    distortion := u.distortion.getD l.distortion
    opacity := u.opacity.getD l.opacity }

/-- The operation `updateLayer(id, updates)`:
`setLayers(prev => prev.map(l => l.id === id ? {...l, ...updates} : l))`. -/
def updateLayer (layers : List (ImageLayer ℚ)) (id : String)
    (u : LayerUpdate) : List (ImageLayer ℚ) :=
  layers.map (fun l => if l.id = id then applyUpdate l u else l)

/-- Editor state relevant to layer removal: the layer list, the active
selection, and the set of GPU texture handles currently allocated on the
WebGL context (a handle enters in `createTexture` and would leave only
through `gl.deleteTexture`). -/
structure EditorState where
  layers : List (ImageLayer ℚ)
  activeLayerId : Option String
  gpuTextures : List Nat
  deriving DecidableEq

/-- The operation `deleteLayer(id)`:
`setLayers(prev => prev.filter(l => l.id !== id))` and
`if (activeLayerId === id) setActiveLayerId(null)`.  The function body
contains no `gl.deleteTexture` call, so the allocated-handle list is
untouched. -/
def deleteLayer (s : EditorState) (id : String) : EditorState :=
  { s with
    layers := s.layers.filter (fun l => l.id ≠ id)
    activeLayerId := if s.activeLayerId = some id then none
                     else s.activeLayerId }

/-! ## The pointer-down hit test, with JavaScript number semantics for the
division by the scaled layer extents -/

/-- The result of a JavaScript floating-point operation whose operands are
exact: either a finite exact value, an infinity, or `NaN`. -/
inductive JsVal (α : Type) where
  | fin : α → JsVal α
  | posInf : JsVal α
  | negInf : JsVal α
  | nan : JsVal α
  deriving DecidableEq

/-- JavaScript division on exact operands: a nonzero divisor gives the
exact quotient; division of a nonzero value by zero gives a signed
infinity, and `0 / 0` gives `NaN`. -/
def jsDiv {α : Type} [LinearOrderedField α] (a b : α) : JsVal α :=
  if b = 0 then
    (if 0 < a then JsVal.posInf else if a < 0 then JsVal.negInf else JsVal.nan)
  else JsVal.fin (a / b)

/-- The JavaScript comparison `Math.abs(v) <= 0.5`: false for `NaN` and for
both infinities (whose absolute value is `+Infinity`). -/
def jsAbsLeHalf {α : Type} [LinearOrderedField α] : JsVal α → Bool
  | JsVal.fin q => if |q| ≤ 1/2 then true else false
  | _ => false

/-- Whether a JavaScript value is finite. -/
def jsFinite {α : Type} : JsVal α → Bool
  | JsVal.fin _ => true
  | _ => false

/-- The per-layer bounds check of `handleMouseDown`, applied to a point in
world space: translate by `(-x, -y)`, rotate by `-rotation`, divide by the
scaled extents, and test both local coordinates against `[-0.5, 0.5]`. -/
noncomputable def layerHit (l : ImageLayer ℝ) (w : ℝ × ℝ) : Bool :=
  let lx1 := w.1 - l.x
  let ly1 := w.2 - l.y
  let c := Real.cos (-l.rotation)
  let s := Real.sin (-l.rotation)
  let lx2 := lx1 * c - ly1 * s
  let ly2 := lx1 * s + ly1 * c
  jsAbsLeHalf (jsDiv lx2 (l.width * l.scale)) &&
    jsAbsLeHalf (jsDiv ly2 (l.height * l.scale))

/-- Canvas-space to world-space conversion of `handleMouseDown`:
`wx = (mx - view.x) / view.scale`, `wy = (my - view.y) / view.scale`. -/
def worldOf {α : Type} [Field α] (v : ViewState α) (m : α × α) : α × α :=
  ((m.1 - v.x) / v.scale, (m.2 - v.y) / v.scale)

/-- The pointer-down hit test against one layer, starting from a
canvas-space point. -/
noncomputable def layerHitScreen (v : ViewState ℝ) (l : ImageLayer ℝ)
    (m : ℝ × ℝ) : Bool :=
  layerHit l (worldOf v m)

/-- The `for (const layer of sortedReverse)` loop: the first layer whose
bounds check passes wins; no hit falls through (to deselect-and-pan). -/
noncomputable def hitScan : List (ImageLayer ℝ) → ℝ × ℝ → Option String
  | [], _ => none
  | l :: rest, w => if layerHit l w then some l.id else hitScan rest w

/-! ## The rendered (forward) transform of a layer -/

/-- The model matrix built in `render`:
`m3_translation(x, y) · m3_rotation(rotation) · m3_scale(w*s, h*s)`
(column-major products, as the chained `m3_multiply` calls produce). -/
noncomputable def modelMatrix (l : ImageLayer ℝ) : Mat3 ℝ :=
  m3_multiply (m3_multiply (m3_translation l.x l.y) (m3_rotation l.rotation))
    (m3_scale (l.width * l.scale) (l.height * l.scale))

/-- The view matrix built in `render`:
`m3_translation(view.x, view.y) · m3_scale(view.scale, view.scale)`. -/
def viewMatrix {α : Type} [Field α] (v : ViewState α) : Mat3 α :=
  m3_multiply (m3_translation v.x v.y) (m3_scale v.scale v.scale)

/-- Forward placement of a local quad point into canvas space: the view
and model matrices of `render`, without the final `m3_projection` (whose
pixel-to-NDC mapping the rasterizer's viewport inverts again, so canvas
space is exactly where mouse coordinates live). -/
noncomputable def forwardPoint (v : ViewState ℝ) (l : ImageLayer ℝ)
    (p : ℝ × ℝ) : ℝ × ℝ :=
  matApply (m3_multiply (viewMatrix v) (modelMatrix l)) p

/-! ## Concrete probe values for counterexamples and witnesses -/

/-- A concrete layer with the given id and z-order: a 10×10 image at the
origin, scale 1, no rotation, no distortion, full opacity. -/
def probeLayer (id : String) (z : ℤ) : ImageLayer ℚ :=
  ⟨id, id, none, 0, 0, 10, 10, 1, 0, 0, 1, z⟩

/-- A partial update supplying only `opacity: 2` (out of range). -/
def c3Update : LayerUpdate := ⟨none, none, none, none, none, some 2⟩

/-- A concrete editor state: one layer `"a"` owning GPU texture handle 7,
which is the active selection. -/
def c9State : EditorState :=
  ⟨[{ probeLayer "a" 1 with texture := some 7 }], some "a", [7]⟩

/-- A degenerate layer: intrinsic width 0 (so `width * scale = 0`). -/
noncomputable def degLayer : ImageLayer ℝ :=
  ⟨"d", "d", none, 0, 0, 0, 10, 1, 0, 0, 1, 1⟩

/-- A rotated layer at the origin: 5×1 image, scale `0.2` (scaled extents
1 × 0.2), rotation `arcsin(3/5)` (≈ 0.6435 rad, cosine 4/5, sine 3/5). -/
noncomputable def c6Layer : ImageLayer ℝ :=
  ⟨"r", "r", none, 0, 0, 5, 1, 1/5, Real.arcsin (3/5), 0, 1, 1⟩

/-- The identity view: no pan, zoom 1. -/
noncomputable def c6View : ViewState ℝ := ⟨0, 0, 1⟩

/-! # Theorems -/

/-- C1 (counterexample): In single-image mode with zoom 1 and
`k = -1.0`, the corner texture coordinate `(0,0)` (local offset
`(-0.5,-0.5)`, `r2 = 0.5`) maps to `(-1/2)·(1 - 0.5) + 1/2 = 1/4` in each
axis: the source UV `(1/4, 1/4)` is inside `[0,1]²`, the edge test fails,
and the corner pixel samples the texture instead of being transparent —
contradicting the claim that every corner maps outside `[0,1]²`. -/
theorem c1_barrel_corner_not_outside :
    lensMap (-1) 1 (0, 0) = (1/4, 1/4) ∧
    uvOutOfBounds (lensMap (-1) 1 (0, 0)) = false ∧
    singleFragment texWhite (-1) 1 (0, 0) = (1, 1, 1, 1) := by
  refine ⟨?_, ?_, ?_⟩ <;>
    norm_num [lensMap, uvOutOfBounds, singleFragment, texWhite]

/-- C1 (amended): With distortion coefficient `k = +1.0` (not `-1.0`)
and zoom 1, each of the four corner texture coordinates maps to a source
UV with a component `-1/4` or `5/4`, outside `[0,1]²`, so each corner
pixel is rendered fully transparent (`vec4(0,0,0,0)`), for every texture;
the center pixel `(1/2, 1/2)` maps to itself and samples its own
location. -/
theorem c1_pincushion_corners_transparent (tex : ℚ × ℚ → Color) :
    uvOutOfBounds (lensMap 1 1 (0, 0)) = true ∧
    uvOutOfBounds (lensMap 1 1 (1, 0)) = true ∧
    uvOutOfBounds (lensMap 1 1 (0, 1)) = true ∧
    uvOutOfBounds (lensMap 1 1 (1, 1)) = true ∧
    singleFragment tex 1 1 (0, 0) = (0, 0, 0, 0) ∧
    singleFragment tex 1 1 (1, 0) = (0, 0, 0, 0) ∧
    singleFragment tex 1 1 (0, 1) = (0, 0, 0, 0) ∧
    singleFragment tex 1 1 (1, 1) = (0, 0, 0, 0) ∧
    lensMap 1 1 (1/2, 1/2) = (1/2, 1/2) ∧
    singleFragment tex 1 1 (1/2, 1/2) = tex (1/2, 1/2) := by
  refine ⟨?_, ?_, ?_, ?_, ?_, ?_, ?_, ?_, ?_, ?_⟩ <;>
    norm_num [lensMap, uvOutOfBounds, singleFragment]

/-- C4 (counterexample): The zoom buttons do not clamp: starting from
`zoomScale = 10` the `+` button yields `11 > 10`, and starting from
`zoomScale = 0.1` the `-` button yields `1/11 < 0.1` — so not every
view-mutating operation keeps `zoomScale` in `[0.1, 10.0]`. -/
theorem c4_zoom_button_escapes_range :
    (zoomInStep (⟨0, 0, 10⟩ : ViewState ℚ)).scale = 11 ∧
    ¬ ((zoomInStep (⟨0, 0, 10⟩ : ViewState ℚ)).scale ≤ 10) ∧
    (zoomOutStep (⟨0, 0, 1/10⟩ : ViewState ℚ)).scale = 1/11 ∧
    ¬ ((1:ℚ)/10 ≤ (zoomOutStep (⟨0, 0, 1/10⟩ : ViewState ℚ)).scale) := by
  refine ⟨?_, ?_, ?_, ?_⟩ <;> norm_num [zoomInStep, zoomOutStep]

/-- C4 (amended): Of the view-mutating operations, the wheel
pinch-zoom does clamp: for every starting view state and every scale
factor, its resulting `zoomScale` lies in `[0.1, 10.0]`.  (The zoom
buttons multiply or divide by 1.1 without clamping, and `fitToScreen`
assigns the fitted scale without clamping, so the range is not an
invariant of all operations.) -/
theorem c4_wheel_zoom_clamped (v : ViewState ℚ) (f mx my : ℚ) :
    1/10 ≤ (wheelZoomStep v f mx my).scale ∧
    (wheelZoomStep v f mx my).scale ≤ 10 := by
  simp only [wheelZoomStep]
  exact ⟨le_max_left _ _, max_le (by norm_num) (min_le_right _ _)⟩

/-- C5 (confirmed): The wheel zoom leaves the world point under the
cursor invariant: for every view state with nonzero scale, every cursor
position and every zoom factor, `(cursor - pan') / scale'` after the
operation equals `(cursor - pan) / scale` before it, in both axes
(exactly, in exact arithmetic). -/
theorem c5_zoom_at_cursor_invariant (v : ViewState ℚ) (f mx my : ℚ)
    (_hv : v.scale ≠ 0) :
    (mx - (wheelZoomStep v f mx my).x) / (wheelZoomStep v f mx my).scale
      = (mx - v.x) / v.scale ∧
    (my - (wheelZoomStep v f mx my).y) / (wheelZoomStep v f mx my).scale
      = (my - v.y) / v.scale := by
  have hpos : (0:ℚ) < max (1/10) (min (v.scale * f) 10) :=
    lt_of_lt_of_le (by norm_num) (le_max_left _ _)
  simp only [wheelZoomStep]
  rw [sub_sub_cancel, sub_sub_cancel]
  exact ⟨mul_div_cancel_right₀ _ hpos.ne', mul_div_cancel_right₀ _ hpos.ne'⟩

/-- C5 (witness): The invariant at the concrete view `(0,0,1)`, cursor
`(3,4)`, scale factor 2. -/
theorem c5_witness :
    ((3:ℚ) - (wheelZoomStep ⟨0, 0, 1⟩ 2 3 4).x)
        / (wheelZoomStep (⟨0, 0, 1⟩ : ViewState ℚ) 2 3 4).scale
      = (3 - (⟨0, 0, 1⟩ : ViewState ℚ).x) / (⟨0, 0, 1⟩ : ViewState ℚ).scale ∧
    ((4:ℚ) - (wheelZoomStep ⟨0, 0, 1⟩ 2 3 4).y)
        / (wheelZoomStep (⟨0, 0, 1⟩ : ViewState ℚ) 2 3 4).scale
      = (4 - (⟨0, 0, 1⟩ : ViewState ℚ).y) / (⟨0, 0, 1⟩ : ViewState ℚ).scale :=
  c5_zoom_at_cursor_invariant ⟨0, 0, 1⟩ 2 3 4 (by norm_num)

/-- C8 (confirmed): For every positive width and height, the
screen-projection matrix, applied the way the vertex shader applies
`u_matrix` to `vec3(a_position, 1)`, maps pixel `(0,0)` exactly to NDC
`(-1,1)` and pixel `(width,height)` exactly to `(1,-1)`. -/
theorem c8_projection_corners (w h : ℚ) (hw : 0 < w) (hh : 0 < h) :
    matApply (m3_projection w h) (0, 0) = (-1, 1) ∧
    matApply (m3_projection w h) (w, h) = (1, -1) := by
  constructor
  · simp [matApply, m3_projection]
  · simp only [matApply, m3_projection, Prod.mk.injEq]
    constructor
    · field_simp
      norm_num
    · field_simp
      ring

/-- C8 (witness): The projection corners at the concrete canvas size
800×600. -/
theorem c8_witness :
    matApply (m3_projection (800:ℚ) 600) (0, 0) = (-1, 1) ∧
    matApply (m3_projection (800:ℚ) 600) (800, 600) = (1, -1) :=
  c8_projection_corners 800 600 (by norm_num) (by norm_num)

/-- C2 (counterexample): The new layer's z-order is `layers.length + 1`,
which is not always above the current maximum: in the reachable state with
two layers of z-order 2 and 3 (add three layers, then delete the one with
z-order 1), the next added layer gets z-order `2 + 1 = 3`, tying — not
strictly exceeding — the existing maximum 3. -/
theorem c2_zindex_ties_after_delete :
    (addedRecord [probeLayer "a" 2, probeLayer "b" 3] "c" "c.png" none
        10 10 800 600).zIndex = 3 ∧
    probeLayer "b" 3 ∈ [probeLayer "a" 2, probeLayer "b" 3] ∧
    (probeLayer "b" 3).zIndex = 3 ∧
    ¬ ((addedRecord [probeLayer "a" 2, probeLayer "b" 3] "c" "c.png" none
        10 10 800 600).zIndex > (probeLayer "b" 3).zIndex) := by
  refine ⟨rfl, by simp, rfl, by norm_num [addedRecord, probeLayer]⟩

/-- C2 (amended): `addLayer` appends a record whose z-order key is
`layers.length + 1`; this is strictly greater than every existing layer's
`zIndex` provided every existing `zIndex` is at most the number of layers
— which holds in any state produced by additions and drag-reorderings
alone, but can fail after a deletion. -/
theorem c2_zindex_above_max_of_bounded (ls : List (ImageLayer ℚ))
    (id name : String) (tex : Option Nat) (imgW imgH cw ch : ℚ)
    (hb : ∀ l ∈ ls, l.zIndex ≤ (ls.length : ℤ)) :
    addLayer ls id name tex imgW imgH cw ch
      = ls ++ [addedRecord ls id name tex imgW imgH cw ch] ∧
    ∀ l ∈ ls, l.zIndex < (addedRecord ls id name tex imgW imgH cw ch).zIndex := by
  refine ⟨rfl, fun l hl => ?_⟩
  have h1 : l.zIndex ≤ (ls.length : ℤ) := hb l hl
  have h2 : (addedRecord ls id name tex imgW imgH cw ch).zIndex
      = (ls.length : ℤ) + 1 := rfl
  omega

/-- C2 (witness): In the two-layer state with z-orders 1 and 2, the
added record's z-order 3 strictly exceeds layer `"a"`'s z-order 1. -/
theorem c2_witness :
    (probeLayer "a" 1).zIndex
      < (addedRecord [probeLayer "a" 1, probeLayer "b" 2] "c" "c" none
          1 1 2 2).zIndex :=
  (c2_zindex_above_max_of_bounded [probeLayer "a" 1, probeLayer "b" 2]
      "c" "c" none 1 1 2 2 (by
        intro l hl
        simp only [List.mem_cons, List.not_mem_nil, or_false] at hl
        rcases hl with rfl | rfl <;> norm_num [probeLayer])).2
    (probeLayer "a" 1) (by simp)

/-- C3 (counterexample): `updateLayer` stores a supplied out-of-range
opacity verbatim: updating layer `"a"` with `{opacity: 2}` produces a
layer whose stored opacity is `2`, outside `[0,1]` — nothing is clamped
or rejected. -/
theorem c3_opacity_stored_unclamped :
    applyUpdate (probeLayer "a" 1) c3Update
      ∈ updateLayer [probeLayer "a" 1] "a" c3Update ∧
    (applyUpdate (probeLayer "a" 1) c3Update).opacity = 2 ∧
    ¬ ((applyUpdate (probeLayer "a" 1) c3Update).opacity ≤ 1) := by
  refine ⟨by simp [updateLayer, probeLayer], rfl, by
    norm_num [applyUpdate, probeLayer, c3Update]⟩

/-- C3 (amended): `updateLayer` merges only the supplied fields of the
layer with the matching id, leaves all other layers untouched, and
preserves the list's length — but stores supplied values verbatim, with
no validation: the resulting scale and opacity equal the supplied value
whenever one is supplied (in or out of range), and keep the old value
when absent.  Range limits exist only in the sliders feeding it. -/
theorem c3_merge_only_supplied (ls : List (ImageLayer ℚ)) (id : String)
    (u : LayerUpdate) (l : ImageLayer ℚ) (hl : l ∈ ls) :
    (l.id = id → applyUpdate l u ∈ updateLayer ls id u) ∧
    (l.id ≠ id → l ∈ updateLayer ls id u) ∧
    (applyUpdate l u).opacity = u.opacity.getD l.opacity ∧
    (applyUpdate l u).scale = u.scale.getD l.scale ∧
    (u.opacity = none → (applyUpdate l u).opacity = l.opacity) ∧
    (u.scale = none → (applyUpdate l u).scale = l.scale) ∧
    (updateLayer ls id u).length = ls.length := by
  refine ⟨fun hid => ?_, fun hid => ?_, rfl, rfl,
    fun h => by simp [applyUpdate, h], fun h => by simp [applyUpdate, h],
    List.length_map _ _⟩
  · have := List.mem_map_of_mem
      (fun l => if l.id = id then applyUpdate l u else l) hl
    simpa [updateLayer, hid] using this
  · have := List.mem_map_of_mem
      (fun l => if l.id = id then applyUpdate l u else l) hl
    simpa [updateLayer, hid] using this

/-- C3 (witness): The merge at the concrete one-layer list and the
`{opacity: 2}` update: the merged record is in the result, its opacity is
the supplied value, and the list length is preserved. -/
theorem c3_witness :
    applyUpdate (probeLayer "a" 1) c3Update
      ∈ updateLayer [probeLayer "a" 1] "a" c3Update ∧
    (applyUpdate (probeLayer "a" 1) c3Update).opacity
      = c3Update.opacity.getD (probeLayer "a" 1).opacity ∧
    (updateLayer [probeLayer "a" 1] "a" c3Update).length = 1 := by
  have H := c3_merge_only_supplied [probeLayer "a" 1] "a" c3Update
    (probeLayer "a" 1) (by simp)
  exact ⟨H.1 rfl, H.2.2.1, H.2.2.2.2.2.2⟩

/-- C9 (counterexample): `deleteLayer` removes the record and clears
the selection, but releases no GPU resource: deleting the only layer
(which owns texture handle 7) leaves the allocated-texture list unchanged
— handle 7 is still allocated, contradicting the claimed release. -/
theorem c9_texture_not_released :
    (deleteLayer c9State "a").layers = [] ∧
    (deleteLayer c9State "a").activeLayerId = none ∧
    (deleteLayer c9State "a").gpuTextures = c9State.gpuTextures ∧
    7 ∈ (deleteLayer c9State "a").gpuTextures := by
  refine ⟨?_, ?_, rfl, ?_⟩ <;> simp [deleteLayer, c9State, probeLayer]

/-- C9 (amended): For every state and id: `deleteLayer` keeps exactly
the layers whose id differs (every survivor was already present); if the
removed id was the active selection the selection becomes none; the GPU
texture list is untouched (no `deleteTexture` call — the handle is not
released); and deleting an id that is not present and not the (dangling)
selection is a complete no-op. -/
theorem c9_delete_layer_behavior (s : EditorState) (id : String) :
    (∀ l ∈ (deleteLayer s id).layers, l.id ≠ id ∧ l ∈ s.layers) ∧
    (s.activeLayerId = some id → (deleteLayer s id).activeLayerId = none) ∧
    (deleteLayer s id).gpuTextures = s.gpuTextures ∧
    (id ∉ s.layers.map ImageLayer.id → s.activeLayerId ≠ some id →
      deleteLayer s id = s) := by
  refine ⟨fun l hl => ?_, fun h => by simp [deleteLayer, h], rfl,
    fun hid hsel => ?_⟩
  · simp only [deleteLayer, List.mem_filter, decide_eq_true_eq] at hl
    exact ⟨hl.2, hl.1⟩
  · obtain ⟨ls, act, tex⟩ := s
    simp only [deleteLayer, EditorState.mk.injEq]
    refine ⟨List.filter_eq_self.mpr fun l hm => ?_, if_neg hsel, trivial⟩
    simp only [List.map] at hid
    have : l.id ≠ id := by
      intro he
      exact hid (by simpa [he] using List.mem_map_of_mem ImageLayer.id hm)
    simpa using this

/-- C9 (witness): Deleting the absent id `"zz"` from the concrete
state is a complete no-op, and deleting `"a"` from it leaves the GPU
texture list unchanged. -/
theorem c9_witness :
    deleteLayer c9State "zz" = c9State ∧
    (deleteLayer c9State "a").gpuTextures = c9State.gpuTextures :=
  ⟨(c9_delete_layer_behavior c9State "zz").2.2.2
      (by simp [c9State, probeLayer]) (by simp [c9State]),
    (c9_delete_layer_behavior c9State "a").2.2.1⟩

/-- C7 (confirmed): If the distortion-mapped source UV of a destination
coordinate falls outside `[0,1]²` in either axis, the fragment contributes
no color: the single-image shader outputs the fully transparent
`vec4(0,0,0,0)` (alpha 0), the layered shader discards, and under the
configured source-over blending both leave any destination pixel exactly
unchanged — no clamping or wrap-around sampling occurs (the branch never
samples the texture). -/
theorem c7_out_of_bounds_no_contribution (tex : ℚ × ℚ → Color)
    (k zoom op : ℚ) (uv : ℚ × ℚ) (dst : Color) :
    (uvOutOfBounds (lensMap k zoom uv) = true →
      singleFragment tex k zoom uv = (0, 0, 0, 0) ∧
      (singleFragment tex k zoom uv).2.2.2 = 0 ∧
      blendSrcOver (singleFragment tex k zoom uv) dst = dst) ∧
    (uvOutOfBounds (distortMap k uv) = true →
      layeredFragment tex k op uv = none ∧
      compositeLayered dst (layeredFragment tex k op uv) = dst) := by
  constructor
  · intro h
    have hf : singleFragment tex k zoom uv = (0, 0, 0, 0) := by
      simp [singleFragment, h]
    obtain ⟨r, g, b, a⟩ := dst
    refine ⟨hf, by rw [hf], ?_⟩
    rw [hf]
    simp [blendSrcOver]
  · intro h
    have hf : layeredFragment tex k op uv = none := by
      simp [layeredFragment, h]
    exact ⟨hf, by rw [hf]; rfl⟩

/-- C7 (witness): The edge policy at the concrete corner `(0,0)` with
`k = 1`, zoom 1, opacity 1: the mapped UV is out of bounds in both modes,
the single fragment is fully transparent, the layered fragment is
discarded, and both leave the destination pixel `(1/2, 1/3, 1/4, 1)`
unchanged. -/
theorem c7_witness :
    uvOutOfBounds (lensMap 1 1 (0, 0)) = true ∧
    singleFragment texWhite 1 1 (0, 0) = (0, 0, 0, 0) ∧
    blendSrcOver (singleFragment texWhite 1 1 (0, 0)) (1/2, 1/3, 1/4, 1)
      = (1/2, 1/3, 1/4, 1) ∧
    uvOutOfBounds (distortMap 1 (0, 0)) = true ∧
    layeredFragment texWhite 1 1 (0, 0) = none ∧
    compositeLayered (1/2, 1/3, 1/4, 1) (layeredFragment texWhite 1 1 (0, 0))
      = (1/2, 1/3, 1/4, 1) := by
  have hs : uvOutOfBounds (lensMap 1 1 (0, 0)) = true := by
    norm_num [lensMap, uvOutOfBounds]
  have hl : uvOutOfBounds (distortMap 1 (0, 0)) = true := by
    norm_num [distortMap, uvOutOfBounds]
  have H := c7_out_of_bounds_no_contribution texWhite 1 1 1 (0, 0)
    ((1:ℚ)/2, 1/3, 1/4, 1)
  exact ⟨hs, (H.1 hs).1, (H.1 hs).2.2, hl, (H.2 hl).1, (H.2 hl).2⟩

/-- C10 (confirmed): The pointer-down hit test is total on degenerate
layers: if a layer's scaled width or scaled height is zero, the JavaScript
division by that extent is non-finite (`±Infinity` or `NaN`) for every
numerator, the `Math.abs(local) <= 0.5` check is false, the layer is never
reported as hit, and the scan simply continues with the remaining layers. -/
theorem c10_degenerate_layer_never_hit (l : ImageLayer ℝ) (w : ℝ × ℝ)
    (rest : List (ImageLayer ℝ))
    (hdeg : l.width * l.scale = 0 ∨ l.height * l.scale = 0) :
    layerHit l w = false ∧
    hitScan (l :: rest) w = hitScan rest w ∧
    ((∀ a : ℝ, jsFinite (jsDiv a (l.width * l.scale)) = false) ∨
     (∀ a : ℝ, jsFinite (jsDiv a (l.height * l.scale)) = false)) := by
  have hfin : ∀ (a b : ℝ), b = 0 → jsFinite (jsDiv a b) = false := by
    intro a b hb
    unfold jsDiv
    rw [if_pos hb]
    split_ifs <;> rfl
  have habs : ∀ (a b : ℝ), b = 0 → jsAbsLeHalf (jsDiv a b) = false := by
    intro a b hb
    unfold jsDiv
    rw [if_pos hb]
    split_ifs <;> rfl
  have hhit : layerHit l w = false := by
    simp only [layerHit]
    rcases hdeg with h | h
    · rw [habs _ _ h, Bool.false_and]
    · rw [habs _ _ h, Bool.and_false]
  refine ⟨hhit, ?_, ?_⟩
  · simp [hitScan, hhit]
  · rcases hdeg with h | h
    · exact Or.inl fun a => hfin a _ h
    · exact Or.inr fun a => hfin a _ h

/-- C10 (witness): The degenerate layer with intrinsic width 0 at world
point `(0,0)`: never hit, and the scan over `[degLayer]` falls through to
the empty scan. -/
theorem c10_witness :
    layerHit degLayer (0, 0) = false ∧
    hitScan [degLayer] (0, 0) = hitScan [] (0, 0) :=
  ⟨(c10_degenerate_layer_never_hit degLayer (0, 0) []
      (Or.inl (by norm_num [degLayer]))).1,
   (c10_degenerate_layer_never_hit degLayer (0, 0) []
      (Or.inl (by norm_num [degLayer]))).2.1⟩

/-- C6 (code bug): Hit-testing is *not* the inverse of the rendered
placement for rotated layers.  `uniformMatrix3fv(…, false, …)` reads
`m3_rotation`'s array column-major, so `render` effectively rotates local
points by `(x·c + y·s, -x·s + y·c)`, while the hit test (like the code's
comments and `fitToScreen`) inverts the transposed rotation
`(x·c - y·s, x·s + y·c)`.  Concretely: for the 5×1 layer at the origin
with scale `0.2` and rotation `arcsin(3/5)` under the identity view, the
in-bounds local corner `(1/2, 1/2)` renders at canvas point
`(23/50, -11/50)`, but the pointer-down hit test at that point computes
local coordinates `(59/250, -113/50)` — `|-113/50| > 1/2` — and reports
no hit. -/
theorem c6_hit_test_misses_forward_point :
    |(1/2 : ℝ)| ≤ 1/2 ∧
    c6Layer.width * c6Layer.scale ≠ 0 ∧
    c6Layer.height * c6Layer.scale ≠ 0 ∧
    forwardPoint c6View c6Layer (1/2, 1/2) = (23/50, -11/50) ∧
    layerHitScreen c6View c6Layer (23/50, -11/50) = false ∧
    layerHitScreen c6View c6Layer (forwardPoint c6View c6Layer (1/2, 1/2))
      = false := by
  have hsin : Real.sin (Real.arcsin (3/5 : ℝ)) = 3/5 :=
    Real.sin_arcsin (by norm_num) (by norm_num)
  have hcos : Real.cos (Real.arcsin (3/5 : ℝ)) = 4/5 := by
    rw [Real.cos_arcsin, show (1 - (3/5 : ℝ) ^ 2) = (4/5) ^ 2 by norm_num]
    exact Real.sqrt_sq (by norm_num)
  have hfwd : forwardPoint c6View c6Layer (1/2, 1/2) = (23/50, -11/50) := by
    norm_num [forwardPoint, viewMatrix, modelMatrix, m3_multiply,
      m3_translation, m3_rotation, m3_rotationCS, m3_scale, matApply,
      c6View, c6Layer, hcos, hsin]
  have hhit : layerHitScreen c6View c6Layer (23/50, -11/50) = false := by
    norm_num [layerHitScreen, layerHit, worldOf, c6View, c6Layer,
      Real.cos_neg, Real.sin_neg, hcos, hsin, jsDiv, jsAbsLeHalf, abs_le]
  refine ⟨by norm_num [abs_of_nonneg], by norm_num [c6Layer],
    by norm_num [c6Layer], hfwd, hhit, by rw [hfwd]; exact hhit⟩
